import Mathlib

/-
A shallow embedding of the bytecode-VM part of the cpplox repository
(src/bytecode_vm: value.cpp and vm.cpp, concatenated in the provided source
file after the scanner header).

Modelling conventions:
  * C++ `double` is modelled by the type `Double` below: an exact rational,
    an infinity with a sign, or the NaN value.  IEEE features that no claim
    depends on (signed zero, rounding of huge finite results to infinity)
    are idealised away; equality and ordering on `Double` follow the IEEE
    comparison rules (any comparison with NaN is false).
  * The operand stack `std::vector<Value>` is modelled as a `List Value`
    whose HEAD is the back (top) of the vector; `stack_.at(i)` indexes from
    the bottom and is modelled by `stack_load`/`stack_store`.
  * The globals `std::unordered_map<std::string, Value>` is modelled as an
    association list.
  * Thrown exceptions are modelled by the `Exn` type: `VM_error`,
    `boost::bad_get` (thrown by a failed `boost::get<T>`), and
    `std::out_of_range` (thrown by a failed `.at`).  Undefined behaviour
    (calling `back`/`pop_back` on an empty vector, reading code bytes past
    the end, moving the instruction pointer before the start of the code)
    is modelled by the `stuck` outcome.
  * Everything written to stdout is collected as a list of `OutEvent`s:
    the unconditional trace block at the top of the interpreter loop emits
    a `trace` event (the rendered stack line) and a `disasm` event (the
    offset handed to disassemble_instruction, whose text lives in
    debug.cpp, which is not part of the provided sources), and the print
    opcode emits a `print` event.
-/

namespace Cpplox

/-- Model of a C++ `double`: NaN, a signed infinity, or an exact finite
value represented as a rational. -/
inductive Double
  | nan
  | inf (neg : Bool)
  | fin (q : ℚ)
deriving DecidableEq, Repr

/-- IEEE `==` on doubles: any comparison involving NaN is false, otherwise
compare the exact values. -/
def deq : Double → Double → Bool
  | .nan, _ => false
  | _, .nan => false
  | .inf a, .inf b => decide (a = b)
  | .fin a, .fin b => decide (a = b)
  | _, _ => false

/-- IEEE `>` on doubles. -/
def dgt : Double → Double → Bool
  | .nan, _ => false
  | _, .nan => false
  | .inf a, .inf b => !a && b
  | .inf a, .fin _ => !a
  | .fin _, .inf b => b
  | .fin a, .fin b => decide (b < a)

/-- IEEE `<` on doubles. -/
def dlt : Double → Double → Bool
  | .nan, _ => false
  | _, .nan => false
  | .inf a, .inf b => a && !b
  | .inf a, .fin _ => a
  | .fin _, .inf b => !b
  | .fin a, .fin b => decide (a < b)

/-- IEEE negation. -/
def dneg : Double → Double
  | .nan => .nan
  | .inf a => .inf (!a)
  | .fin q => .fin (-q)

/-- IEEE addition (finite overflow to infinity idealised away). -/
def dadd : Double → Double → Double
  | .nan, _ => .nan
  | _, .nan => .nan
  | .inf a, .inf b => if a = b then .inf a else .nan
  | .inf a, .fin _ => .inf a
  | .fin _, .inf b => .inf b
  | .fin a, .fin b => .fin (a + b)

/-- IEEE subtraction, which coincides with adding the negation. -/
def dsub (a b : Double) : Double := dadd a (dneg b)

/-- IEEE multiplication (signed zero idealised away: a zero times an
infinity is NaN, as in IEEE). -/
def dmul : Double → Double → Double
  | .nan, _ => .nan
  | _, .nan => .nan
  | .inf a, .inf b => .inf (xor a b)
  | .inf a, .fin q => if q = 0 then .nan else .inf (xor a (decide (q < 0)))
  | .fin q, .inf b => if q = 0 then .nan else .inf (xor (decide (q < 0)) b)
  | .fin a, .fin b => .fin (a * b)

/-- IEEE division.  `x/0` gives a signed infinity for `x ≠ 0` and NaN for
`0/0`; a finite value divided by an infinity gives zero (the sign of that
zero is not representable here). -/
def ddiv : Double → Double → Double
  | .nan, _ => .nan
  | _, .nan => .nan
  | .inf _, .inf _ => .nan
  | .inf a, .fin q => .inf (xor a (decide (q < 0)))
  | .fin _, .inf _ => .fin 0
  | .fin a, .fin b =>
    if b = 0 then (if a = 0 then .nan else .inf (decide (a < 0)))
    else .fin (a / b)

/-- The VM value type: `boost::variant<std::string, double, bool, std::nullptr_t>`
(the four alternatives handled by Ostream_visitor / value.cpp). -/
inductive Value
  | string (s : String)
  | number (d : Double)
  | bool (b : Bool)
  | nil
deriving DecidableEq, Repr

/-- Discriminant of the variant alternative held by a `Value`. -/
def vtag : Value → Nat
  | .string _ => 0
  | .number _ => 1
  | .bool _ => 2
  | .nil => 3

/-- Is_truthy_visitor: only `false` and `nil` are falsey, everything else
is truthy. -/
def is_truthy : Value → Bool
  | .bool b => b
  | .nil => false
  | _ => true

/-- Is_equal_visitor: different variant alternatives compare false, the
same alternative uses the natural equality of the held type (IEEE `==`
for doubles). -/
def is_equal : Value → Value → Bool
  | .string a, .string b => decide (a = b)
  | .number a, .number b => deq a b
  | .bool a, .bool b => decide (a = b)
  | .nil, .nil => true
  | _, _ => false

/-- Plus_visitor: two strings concatenate, two numbers add, every other
combination throws `VM_error{"Operands must be two numbers or two strings."}`. -/
def plus_visitor : Value → Value → Except String Value
  | .string a, .string b => .ok (.string (a ++ b))
  | .number a, .number b => .ok (.number (dadd a b))
  | _, _ => .error "Operands must be two numbers or two strings."

/- ---------------------------------------------------------------------
Rendering of values (value.cpp: Ostream_visitor and print_value).
The stream is `std::cout` with default flags, so a double is written with
`defaultfloat` formatting and the default precision of 6: six significant
digits, fixed or scientific notation chosen by the printf %g rule, and
trailing zeros removed.  That formatting is implemented exactly below on
the rational payload of a finite `Double`.
--------------------------------------------------------------------- -/

/-- Decimal digit character. -/
def digit_char (n : Nat) : Char := Char.ofNat (48 + n)

/-- Big-endian decimal digit characters of `n` appended before `acc`;
`fuel` bounds the recursion and any `fuel > log10 n` is enough. -/
def nat_chars : Nat → Nat → List Char → List Char
  | 0, _, acc => acc
  | fuel+1, n, acc =>
    if n < 10 then digit_char n :: acc
    else nat_chars fuel (n / 10) (digit_char (n % 10) :: acc)

/-- Decimal rendering of a natural number. -/
def nat_string (n : Nat) : String := String.mk (nat_chars (n + 1) n [])

/-- Number of decimal digits (auxiliary, fuelled). -/
def ndigits_aux : Nat → Nat → Nat
  | 0, _ => 1
  | fuel+1, n => if n < 10 then 1 else ndigits_aux fuel (n / 10) + 1

/-- Number of decimal digits of `n`. -/
def ndigits (n : Nat) : Nat := ndigits_aux n n

/-- Smallest `k` with `d ≤ n * 10 ^ k`, searched upward from `k` (fuelled). -/
def first_exp_aux : Nat → Nat → Nat → Nat → Nat
  | 0, _, _, k => k
  | fuel+1, n, d, k => if d ≤ n * 10 ^ k then k else first_exp_aux fuel n d (k + 1)

/-- For `0 < n < d`: the smallest `k ≥ 1` with `d ≤ n * 10 ^ k`, so that
`10 ^ (-k) ≤ n/d < 10 ^ (-k+1)`. -/
def first_exp (n d : Nat) : Nat := first_exp_aux (ndigits d + 2) n d 1

/-- Decimal exponent `e` of the positive rational `n/d`:
`10 ^ e ≤ n/d < 10 ^ (e+1)`. -/
def dec_exp (n d : Nat) : Int :=
  if d ≤ n then (ndigits (n / d) : Int) - 1 else -(first_exp n d : Int)

/-- Round the positive rational `n/d` to six significant decimal digits
(ties to even, as the exact binary value of a double is rounded by the
C and C++ output routines): returns the six digits as a number in
`[100000, 999999]` together with the decimal exponent. -/
def sig6 (n d : Nat) : Nat × Int :=
  let e := dec_exp n d
  let p : Int := 5 - e
  let AB := if 0 ≤ p then (n * 10 ^ p.toNat, d) else (n, d * 10 ^ (-p).toNat)
  let F := AB.1 / AB.2
  let R := AB.1 % AB.2
  let D :=
    if AB.2 < 2 * R then F + 1
    else if 2 * R < AB.2 then F
    else if F % 2 = 0 then F else F + 1
  if D = 1000000 then (100000, e + 1) else (D, e)

/-- Remove trailing zero characters. -/
def strip_zeros (cs : List Char) : List Char :=
  (cs.reverse.dropWhile (fun ch => ch = digit_char 0)).reverse

/-- Lay out six significant digits `ds` with decimal exponent `e` following
the printf %g rule with precision 6: scientific notation when `e < -4` or
`6 ≤ e`, fixed notation otherwise, trailing zeros stripped. -/
def fmt_digits (ds : List Char) (e : Int) : String :=
  if e < -4 ∨ 6 ≤ e then
    let mant :=
      match ds with
      | [] => ""
      | h :: t =>
        let t2 := strip_zeros t
        if t2 = [] then String.mk [h] else String.mk [h] ++ "." ++ String.mk t2
    let ea := if e < 0 then (-e).toNat else e.toNat
    let es := if ea < 10 then "0" ++ nat_string ea else nat_string ea
    mant ++ "e" ++ (if e < 0 then "-" else "+") ++ es
  else if 0 ≤ e then
    let k := e.toNat + 1
    let intPart := String.mk (ds.take k)
    let frac := strip_zeros (ds.drop k)
    if frac = [] then intPart else intPart ++ "." ++ String.mk frac
  else
    let z := (-e).toNat - 1
    "0." ++ String.mk (List.replicate z (digit_char 0)) ++ String.mk (strip_zeros ds)

/-- C++ `os << value` for a finite double with default stream state
(precision 6, defaultfloat): six significant digits in %g layout. -/
def fmt_g6 (q : ℚ) : String :=
  if q.num = 0 then "0"
  else
    let s := fmt_digits (nat_chars 7 (sig6 q.num.natAbs q.den).1 []) (sig6 q.num.natAbs q.den).2
    if q.num < 0 then "-" ++ s else s

/-- Rendering of a `Double` by `operator<<`. -/
def double_to_string : Double → String
  | .nan => "nan"
  | .inf neg => if neg then "-inf" else "inf"
  | .fin q => fmt_g6 q

/-- print_value / Ostream_visitor: strings print raw, doubles with the
default stream formatting, bools as `true`/`false` (boolalpha), and the
nullptr alternative as `nil`. -/
def print_value : Value → String
  | .string s => s
  | .number d => double_to_string d
  | .bool b => if b then "true" else "false"
  | .nil => "nil"

/- ---------------------------------------------------------------------
Chunks and the VM (vm.cpp).
--------------------------------------------------------------------- -/

/-- Chunk: bytecode, constant pool and line table. -/
structure Chunk where
  code : List Nat
  constants : List Value
  lines : List Nat
deriving DecidableEq, Repr

/-- Modelled from the spec: the Op_code enum lives in chunk.hpp, which is
not among the provided sources; the spec (section 3) fixes the closed set
and its order, which is used here as the numbering.  No claim depends on
the concrete numbering. -/
inductive Op_code
  | constant
  | nil
  | true_
  | false_
  | pop
  | get_local
  | set_local
  | get_global
  | set_global
  | define_global
  | equal
  | greater
  | less
  | add
  | subtract
  | multiply
  | divide
  | not_
  | negate
  | print
  | jump
  | jump_if_false
  | loop
  | return_
deriving DecidableEq, Repr

/-- Byte encoding of an opcode (spec section 3 order). -/
def Op_code.toByte : Op_code → Nat
  | .constant => 0
  | .nil => 1
  | .true_ => 2
  | .false_ => 3
  | .pop => 4
  | .get_local => 5
  | .set_local => 6
  | .get_global => 7
  | .set_global => 8
  | .define_global => 9
  | .equal => 10
  | .greater => 11
  | .less => 12
  | .add => 13
  | .subtract => 14
  | .multiply => 15
  | .divide => 16
  | .not_ => 17
  | .negate => 18
  | .print => 19
  | .jump => 20
  | .jump_if_false => 21
  | .loop => 22
  | .return_ => 23

/-- Decoding of a byte into an opcode. -/
def Op_code.ofByte? : Nat → Option Op_code
  | 0 => some .constant
  | 1 => some .nil
  | 2 => some .true_
  | 3 => some .false_
  | 4 => some .pop
  | 5 => some .get_local
  | 6 => some .set_local
  | 7 => some .get_global
  | 8 => some .set_global
  | 9 => some .define_global
  | 10 => some .equal
  | 11 => some .greater
  | 12 => some .less
  | 13 => some .add
  | 14 => some .subtract
  | 15 => some .multiply
  | 16 => some .divide
  | 17 => some .not_
  | 18 => some .negate
  | 19 => some .print
  | 20 => some .jump
  | 21 => some .jump_if_false
  | 22 => some .loop
  | 23 => some .return_
  | _ => none

/-- The mutable state of the VM object: instruction pointer (an offset
into `chunk.code`), operand stack (head of the list is the back of the
vector, i.e. the top of the stack), and the globals map. -/
structure VM where
  ip : Nat
  stack : List Value
  globals : List (String × Value)
deriving DecidableEq, Repr

/-- Lookup in the globals map (`globals_.find`). -/
def globals_find : List (String × Value) → String → Option Value
  | [], _ => none
  | (k, v) :: t, name => if k = name then some v else globals_find t name

/-- Assignment through a found iterator (`found_value->second = ...`):
replaces the value of an existing binding, leaves the map unchanged when
the name is absent. -/
def globals_assign : List (String × Value) → String → Value → List (String × Value)
  | [], _, _ => []
  | (k, v) :: t, name, w =>
    if k = name then (k, w) :: t else (k, v) :: globals_assign t name w

/-- `globals_[name] = value`: insert-or-assign. -/
def globals_define (g : List (String × Value)) (name : String) (w : Value) :
    List (String × Value) :=
  if (globals_find g name).isSome then globals_assign g name w else g ++ [(name, w)]

/-- `stack_.at(i)`: zero-based index from the BOTTOM of the stack (the
front of the vector); `none` models the `std::out_of_range` throw. -/
def stack_load (st : List Value) (i : Nat) : Option Value :=
  if i < st.length then st[st.length - 1 - i]? else none

/-- `stack_.at(i) = v` for `i < st.length`. -/
def stack_store (st : List Value) (i : Nat) (v : Value) : List Value :=
  st.set (st.length - 1 - i) v

/-- The exceptions the interpreter loop can throw. -/
inductive Exn
  | vm_error (msg : String)
  | bad_get
  | out_of_range
deriving DecidableEq, Repr

/-- Outcome of one iteration of the interpreter loop. -/
inductive StepResult
  | ok (s : VM)
  | halt (s : VM)
  | err (e : Exn) (s : VM)
  | stuck
deriving DecidableEq, Repr

/-- One item written to stdout. -/
inductive OutEvent
  | trace (line : String)
  | disasm (offset : Nat)
  | print (text : String)
deriving DecidableEq, Repr

/-- The stack line printed by the trace block: ten spaces, then each stack
value from bottom to top wrapped in brackets, then a newline. -/
def trace_line (stack : List Value) : String :=
  "          " ++ String.join (stack.reverse.map (fun v => "[ " ++ print_value v ++ " ]")) ++ "\n"

/-- The trace block at the top of every loop iteration: the stack line and
the disassembly of the instruction at the current offset. -/
def trace_events (s : VM) : List OutEvent :=
  [OutEvent.trace (trace_line s.stack), OutEvent.disasm s.ip]

/-- The two bytes after a jump-family opcode reinterpreted as a single
uint16 (host-dependent in the source; the spec fixes little-endian). -/
def read_u16 (b0 b1 : Nat) : Nat := b0 + 256 * b1

/-- The dispatch body of VM::run for a single instruction, translated case
by case from the switch in vm.cpp.  `s.ip` is at the opcode byte; the
returned events are those written by the instruction itself (only the
print opcode writes). -/
def exec (c : Chunk) (s : VM) : StepResult × List OutEvent :=
  match c.code[s.ip]? with
  | none => (.stuck, [])
  | some b =>
    match Op_code.ofByte? b with
    | none => (.ok { s with ip := s.ip + 1 }, [])
    | some op =>
      let ip1 := s.ip + 1
      match op with
      | .constant =>
        match c.code[ip1]? with
        | none => (.stuck, [])
        | some k =>
          match c.constants[k]? with
          | none => (.err .out_of_range { s with ip := ip1 + 1 }, [])
          | some v => (.ok { s with ip := ip1 + 1, stack := v :: s.stack }, [])
      | .nil => (.ok { s with ip := ip1, stack := Value.nil :: s.stack }, [])
      | .true_ => (.ok { s with ip := ip1, stack := Value.bool true :: s.stack }, [])
      | .false_ => (.ok { s with ip := ip1, stack := Value.bool false :: s.stack }, [])
      | .pop =>
        match s.stack with
        | [] => (.stuck, [])
        | _ :: rest => (.ok { s with ip := ip1, stack := rest }, [])
      | .get_local =>
        match c.code[ip1]? with
        | none => (.stuck, [])
        | some i =>
          match stack_load s.stack i with
          | none => (.err .out_of_range { s with ip := ip1 + 1 }, [])
          | some v => (.ok { s with ip := ip1 + 1, stack := v :: s.stack }, [])
      | .set_local =>
        match c.code[ip1]? with
        | none => (.stuck, [])
        | some i =>
          if i < s.stack.length then
            match s.stack with
            | [] => (.stuck, [])
            | v :: _ =>
              (.ok { s with ip := ip1 + 1, stack := stack_store s.stack i v }, [])
          else (.err .out_of_range { s with ip := ip1 + 1 }, [])
      | .get_global =>
        match c.code[ip1]? with
        | none => (.stuck, [])
        | some k =>
          match c.constants[k]? with
          | none => (.err .out_of_range { s with ip := ip1 + 1 }, [])
          | some cv =>
            match cv with
            | .string name =>
              match globals_find s.globals name with
              | none =>
                (.err (.vm_error ("Undefined variable '" ++ name ++ "'"))
                  { s with ip := ip1 + 1 }, [])
              | some v => (.ok { s with ip := ip1 + 1, stack := v :: s.stack }, [])
            | _ => (.err .bad_get { s with ip := ip1 + 1 }, [])
      | .set_global =>
        match c.code[ip1]? with
        | none => (.stuck, [])
        | some k =>
          match c.constants[k]? with
          | none => (.err .out_of_range { s with ip := ip1 + 1 }, [])
          | some cv =>
            match cv with
            | .string name =>
              match globals_find s.globals name with
              | none =>
                (.err (.vm_error ("Undefined variable '" ++ name ++ "'"))
                  { s with ip := ip1 + 1 }, [])
              | some _ =>
                match s.stack with
                | [] => (.stuck, [])
                | v :: _ =>
                  (.ok { s with ip := ip1 + 1, globals := globals_assign s.globals name v }, [])
            | _ => (.err .bad_get { s with ip := ip1 + 1 }, [])
      | .define_global =>
        match c.code[ip1]? with
        | none => (.stuck, [])
        | some k =>
          match c.constants[k]? with
          | none => (.err .out_of_range { s with ip := ip1 + 1 }, [])
          | some cv =>
            match cv with
            | .string name =>
              match s.stack with
              | [] => (.stuck, [])
              | v :: rest =>
                (.ok { s with ip := ip1 + 1, stack := rest, globals := globals_define s.globals name v }, [])
            | _ => (.err .bad_get { s with ip := ip1 + 1 }, [])
      | .equal =>
        match s.stack with
        | r :: l :: rest =>
          (.ok { s with ip := ip1, stack := Value.bool (is_equal l r) :: rest }, [])
        | _ => (.stuck, [])
      | .greater =>
        match s.stack with
        | [] => (.stuck, [])
        | r :: rest1 =>
          match r with
          | .number rv =>
            match rest1 with
            | [] => (.stuck, [])
            | l :: rest =>
              match l with
              | .number lv =>
                (.ok { s with ip := ip1, stack := Value.bool (dgt lv rv) :: rest }, [])
              | _ => (.err .bad_get { s with ip := ip1, stack := rest1 }, [])
          | _ => (.err .bad_get { s with ip := ip1 }, [])
      | .less =>
        match s.stack with
        | [] => (.stuck, [])
        | r :: rest1 =>
          match r with
          | .number rv =>
            match rest1 with
            | [] => (.stuck, [])
            | l :: rest =>
              match l with
              | .number lv =>
                (.ok { s with ip := ip1, stack := Value.bool (dlt lv rv) :: rest }, [])
              | _ => (.err .bad_get { s with ip := ip1, stack := rest1 }, [])
          | _ => (.err .bad_get { s with ip := ip1 }, [])
      | .add =>
        match s.stack with
        | r :: l :: rest =>
          match plus_visitor l r with
          | .ok v => (.ok { s with ip := ip1, stack := v :: rest }, [])
          | .error m => (.err (.vm_error m) { s with ip := ip1, stack := rest }, [])
        | _ => (.stuck, [])
      | .subtract =>
        match s.stack with
        | [] => (.stuck, [])
        | r :: rest1 =>
          match r with
          | .number rv =>
            match rest1 with
            | [] => (.stuck, [])
            | l :: rest =>
              match l with
              | .number lv =>
                (.ok { s with ip := ip1, stack := Value.number (dsub lv rv) :: rest }, [])
              | _ => (.err .bad_get { s with ip := ip1, stack := rest1 }, [])
          | _ => (.err .bad_get { s with ip := ip1 }, [])
      | .multiply =>
        match s.stack with
        | [] => (.stuck, [])
        | r :: rest1 =>
          match r with
          | .number rv =>
            match rest1 with
            | [] => (.stuck, [])
            | l :: rest =>
              match l with
              | .number lv =>
                (.ok { s with ip := ip1, stack := Value.number (dmul lv rv) :: rest }, [])
              | _ => (.err .bad_get { s with ip := ip1, stack := rest1 }, [])
          | _ => (.err .bad_get { s with ip := ip1 }, [])
      | .divide =>
        match s.stack with
        | [] => (.stuck, [])
        | r :: rest1 =>
          match r with
          | .number rv =>
            match rest1 with
            | [] => (.stuck, [])
            | l :: rest =>
              match l with
              | .number lv =>
                (.ok { s with ip := ip1, stack := Value.number (ddiv lv rv) :: rest }, [])
              | _ => (.err .bad_get { s with ip := ip1, stack := rest1 }, [])
          | _ => (.err .bad_get { s with ip := ip1 }, [])
      | .not_ =>
        match s.stack with
        | [] => (.stuck, [])
        | v :: rest =>
          (.ok { s with ip := ip1, stack := Value.bool (!(is_truthy v)) :: rest }, [])
      | .negate =>
        match s.stack with
        | [] => (.stuck, [])
        | v :: rest =>
          match v with
          | .number d =>
            (.ok { s with ip := ip1, stack := Value.number (dneg d) :: rest }, [])
          | _ => (.err .bad_get { s with ip := ip1 }, [])
      | .print =>
        match s.stack with
        | [] => (.stuck, [])
        | v :: rest =>
          (.ok { s with ip := ip1, stack := rest },
            [OutEvent.print (print_value v ++ "\n")])
      | .jump =>
        match c.code[ip1]?, c.code[ip1 + 1]? with
        | some b0, some b1 =>
          (.ok { s with ip := s.ip + 3 + read_u16 b0 b1 }, [])
        | _, _ => (.stuck, [])
      | .jump_if_false =>
        match c.code[ip1]?, c.code[ip1 + 1]? with
        | some b0, some b1 =>
          match s.stack with
          | [] => (.stuck, [])
          | v :: _ =>
            if is_truthy v then (.ok { s with ip := s.ip + 3 }, [])
            else (.ok { s with ip := s.ip + 3 + read_u16 b0 b1 }, [])
        | _, _ => (.stuck, [])
      | .loop =>
        match c.code[ip1]?, c.code[ip1 + 1]? with
        | some b0, some b1 =>
          let n := read_u16 b0 b1
          if n ≤ s.ip then (.ok { s with ip := s.ip - n }, [])
          else (.stuck, [])
        | _, _ => (.stuck, [])
      | .return_ => (.halt { s with ip := ip1 }, [])

/-- One full iteration of VM::run: the unconditional trace block, then the
instruction dispatch. -/
def step (c : Chunk) (s : VM) : StepResult × List OutEvent :=
  ((exec c s).1, trace_events s ++ (exec c s).2)

/-- Final outcome of running the loop. -/
inductive RunResult
  | halted (s : VM)
  | errored (e : Exn) (s : VM)
  | stuck
  | out_of_fuel (s : VM)
deriving DecidableEq, Repr

/-- VM::run, with explicit fuel; concatenates everything written to
stdout. -/
def run (c : Chunk) : Nat → VM → RunResult × List OutEvent
  | 0, s => (.out_of_fuel s, [])
  | fuel+1, s =>
    match step c s with
    | (.ok s2, ev) =>
      let r := run c fuel s2
      (r.1, ev ++ r.2)
    | (.halt s2, ev) => (.halted s2, ev)
    | (.err e s2, ev) => (.errored e s2, ev)
    | (.stuck, ev) => (.stuck, ev)

/-- Whether an exception is a `VM_error` (rather than `boost::bad_get` or
`std::out_of_range`). -/
def Exn.is_vm_error : Exn → Bool
  | .vm_error _ => true
  | _ => false

/- ---------------------------------------------------------------------
Concrete chunks used as inputs for the claims about the jump family and
about statement-level stack balance.
--------------------------------------------------------------------- -/

/-- A chunk holding a single JUMP instruction with operand 2. -/
def jump_chunk : Chunk := { code := [20, 2, 0], constants := [], lines := [1, 1, 1] }

/-- A chunk holding four NIL instructions followed by a LOOP instruction
(at offset 4) with operand 2. -/
def loop_chunk : Chunk :=
  { code := [1, 1, 1, 1, 22, 2, 0], constants := [], lines := [1, 1, 1, 1, 1, 1, 1] }

/-- A chunk holding a single RETURN instruction. -/
def return_chunk : Chunk := { code := [23], constants := [], lines := [1] }

/-- Modelled from the spec: the bytecode compiler (compiler.cpp) is not
among the provided sources.  This chunk is the section 4.5 compilation of
the single statement `while (x) x = false;`: the condition is a GET_GLOBAL
of the name `x`, the exit JUMP_IF_FALSE operand is the forward distance
from the byte after its operand (offset 5) to the exit POP (offset 13),
and the LOOP operand is the backward distance from the byte after its
operand (offset 13) to the condition (offset 0), i.e. 13; a RETURN ends
the chunk.

```
 0: GET_GLOBAL 0      (constant 0 = "x")
 2: JUMP_IF_FALSE 8   (to offset 13)
 5: POP
 6: FALSE
 7: SET_GLOBAL 0
 9: POP
10: LOOP 13           (back to offset 0 per the spec)
13: POP
14: RETURN
``` -/
def while_chunk : Chunk :=
  { code := [7, 0, 21, 8, 0, 4, 3, 8, 0, 4, 22, 13, 0, 4, 23]
  , constants := [Value.string "x"]
  , lines := List.replicate 15 1 }

/-- The VM state before the `while` statement: empty stack, the global `x`
bound to `true` (as left behind by `var x = true;`). -/
def while_state : VM := { ip := 0, stack := [], globals := [("x", Value.bool true)] }

/-- Modelled from the spec: a single step whose LOOP instruction follows
the words of section 4.5 (a 16-bit unsigned offset relative to the byte
after the operand, encoding the backward distance), so that LOOP continues
at `ip + 3 - n`; every other instruction behaves exactly as the
implementation does. -/
def step_spec (c : Chunk) (s : VM) : StepResult × List OutEvent :=
  match c.code[s.ip]? with
  | some 22 =>
    match c.code[s.ip + 1]?, c.code[s.ip + 2]? with
    | some b0, some b1 =>
      let n := read_u16 b0 b1
      if n ≤ s.ip + 3 then (.ok { s with ip := s.ip + 3 - n }, trace_events s)
      else (.stuck, trace_events s)
    | _, _ => (.stuck, trace_events s)
  | _ => step c s

/-- Modelled from the spec: the run loop over `step_spec`. -/
def run_spec (c : Chunk) : Nat → VM → RunResult × List OutEvent
  | 0, s => (.out_of_fuel s, [])
  | fuel+1, s =>
    match step_spec c s with
    | (.ok s2, ev) =>
      let r := run_spec c fuel s2
      (r.1, ev ++ r.2)
    | (.halt s2, ev) => (.halted s2, ev)
    | (.err e s2, ev) => (.errored e s2, ev)
    | (.stuck, ev) => (.stuck, ev)

/- ---------------------------------------------------------------------
Concrete doubles used for the claims about number printing.
--------------------------------------------------------------------- -/

/-- The value 2 ^ (-20) = 9.5367431640625e-07, exactly representable as an
IEEE double. -/
def q_a : ℚ := Rat.mk' 1 1048576 (by norm_num) (Nat.coprime_one_left _)

/-- The value 2 ^ (-20) + 2 ^ (-60), also exactly representable as an IEEE
double (41 significant bits) and distinct from `q_a`. -/
def q_b : ℚ :=
  Rat.mk' 1099511627777 1152921504606846976 (by norm_num) (by decide)

/-- The exact rational value of the decimal literal 9.53674e-07, namely
953674 / 10 ^ 12 in lowest terms. -/
def q_c : ℚ := Rat.mk' 476837 500000000000 (by norm_num) (by decide)

/- ---------------------------------------------------------------------
Theorems for the claims.
--------------------------------------------------------------------- -/

/-- C1.  JUMP behaves as the claim states: with any operand bytes b0 b1
encoding n, execution continues at the byte after the two operand bytes
plus n (here offset 0 + 3 + n).  LOOP does not: at the concrete input
`loop_chunk` (LOOP at offset 4 with operand n = 2) the implementation
continues at offset 4 - 2 = 2, the offset of the LOOP opcode minus n,
whereas the claim demands offset 4 + 3 - 2 = 5 (the source moves the
instruction pointer back by 1 instead of forward by 2 over the operand
bytes before subtracting n). -/
theorem c1_jump_loop_targets :
    (∀ b0 b1 : Nat,
      (step { code := [20, b0, b1], constants := [], lines := [1, 1, 1] }
        { ip := 0, stack := [], globals := [] }).1
        = .ok { ip := 3 + read_u16 b0 b1, stack := [], globals := [] })
    ∧ (step loop_chunk { ip := 4, stack := [], globals := [] }).1
        = .ok { ip := 2, stack := [], globals := [] }
    ∧ ¬ (step loop_chunk { ip := 4, stack := [], globals := [] }).1
        = .ok { ip := 4 + 3 - 2, stack := [], globals := [] } :=
  ⟨fun _ _ => rfl, by decide, by decide⟩

/-- C2.  At concrete states whose operands are not numbers, NEGATE,
GREATER and LESS throw the exception of a failed `boost::get<double>`
(modelled as `Exn.bad_get`), which is not a `VM_error`: the source reads
the operand with `get<double>` and has a TODO comment at NEGATE about
converting the error, so the spec describes the intent and the code
throws the wrong exception type. -/
theorem c2_negate_comparison_throw_bad_get :
    (step { code := [18], constants := [], lines := [1] }
        { ip := 0, stack := [Value.bool true], globals := [] }).1
      = .err .bad_get { ip := 1, stack := [Value.bool true], globals := [] }
    ∧ (step { code := [11], constants := [], lines := [1] }
        { ip := 0, stack := [Value.string "a", Value.number (Double.fin 1)], globals := [] }).1
      = .err .bad_get
          { ip := 1, stack := [Value.string "a", Value.number (Double.fin 1)], globals := [] }
    ∧ (step { code := [12], constants := [], lines := [1] }
        { ip := 0, stack := [Value.nil, Value.number (Double.fin 1)], globals := [] }).1
      = .err .bad_get
          { ip := 1, stack := [Value.nil, Value.number (Double.fin 1)], globals := [] }
    ∧ Exn.is_vm_error Exn.bad_get = false :=
  ⟨by decide, by decide, by decide, rfl⟩

/-- C3.  Statement-level stack balance fails on the implementation for a
spec-compiled `while` statement.  Under the loop semantics of spec
section 4.5 (`run_spec`), executing `while (x) x = false;` from an empty
stack halts with the stack restored to empty; the implementation
(`run`), whose LOOP moves the instruction pointer to the loop opcode
offset minus n, sends the instruction pointer three bytes before the
condition, which is before the start of the chunk, and execution never
completes the statement. -/
theorem c3_while_statement_balance_broken :
    (run while_chunk 30 while_state).1 = .stuck
    ∧ (run_spec while_chunk 30 while_state).1
        = .halted { ip := 15, stack := [], globals := [("x", Value.bool false)] } :=
  ⟨by decide, by decide⟩

/-- C8 (counterexample).  The source has no tracing toggle: executing even
a one-instruction chunk writes the trace block output (the stack line and
the disassembly of the current instruction), so it is false that without
tracing enabled a chunk executes with no trace output. -/
theorem c8_trace_output_always_produced :
    (run return_chunk 1 { ip := 0, stack := [], globals := [] }).2
      = [OutEvent.trace "          \n", OutEvent.disasm 0]
    ∧ (run return_chunk 1 { ip := 0, stack := [], globals := [] }).2 ≠ [] :=
  ⟨by decide, by decide⟩

/-- C8 (amended).  The VM prints the stack contents and the disassembly
offset of the current instruction before EVERY execution step,
unconditionally: there is no tracing flag, so every step's output begins
with the trace block. -/
theorem c8_trace_unconditional (c : Chunk) (s : VM) :
    (step c s).2.take 2 = [OutEvent.trace (trace_line s.stack), OutEvent.disasm s.ip] :=
  rfl

/-- C4.  ADD on operands `l` (beneath) and `r` (top): two numbers push the
numeric sum, two strings push the concatenation, and every other
combination of variant alternatives throws
`VM_error{"Operands must be two numbers or two strings."}`. -/
theorem c4_add_dispatch (c : Chunk) (ip : Nat) (g : List (String × Value))
    (l r : Value) (rest : List Value)
    (hop : c.code[ip]? = some (Op_code.toByte .add)) :
    (∀ a b, l = Value.number a → r = Value.number b →
      (step c { ip := ip, stack := r :: l :: rest, globals := g }).1
        = .ok { ip := ip + 1, stack := Value.number (dadd a b) :: rest, globals := g })
    ∧ (∀ x y, l = Value.string x → r = Value.string y →
      (step c { ip := ip, stack := r :: l :: rest, globals := g }).1
        = .ok { ip := ip + 1, stack := Value.string (x ++ y) :: rest, globals := g })
    ∧ ((∀ a b, ¬(l = Value.number a ∧ r = Value.number b)) →
       (∀ x y, ¬(l = Value.string x ∧ r = Value.string y)) →
      (step c { ip := ip, stack := r :: l :: rest, globals := g }).1
        = .err (.vm_error "Operands must be two numbers or two strings.")
            { ip := ip + 1, stack := rest, globals := g }) := by
  refine ⟨?_, ?_, ?_⟩
  · rintro a b rfl rfl
    simp [step, exec, hop, Op_code.toByte, Op_code.ofByte?, plus_visitor]
  · rintro x y rfl rfl
    simp [step, exec, hop, Op_code.toByte, Op_code.ofByte?, plus_visitor]
  · intro hnum hstr
    cases l <;> cases r <;>
      first
        | exact absurd ⟨rfl, rfl⟩ (hnum _ _)
        | exact absurd ⟨rfl, rfl⟩ (hstr _ _)
        | simp [step, exec, hop, Op_code.toByte, Op_code.ofByte?, plus_visitor]

/-- Witness for C4 at a concrete input: adding the numbers 1 and 2. -/
theorem c4_add_dispatch_witness :
    (step { code := [13], constants := [], lines := [1] }
      { ip := 0,
        stack := [Value.number (Double.fin 2), Value.number (Double.fin 1)],
        globals := [] }).1
      = .ok { ip := 1, stack := [Value.number (Double.fin 3)], globals := [] } := by
  have h := (c4_add_dispatch { code := [13], constants := [], lines := [1] } 0 []
    (Value.number (Double.fin 1)) (Value.number (Double.fin 2)) [] rfl).1
    (Double.fin 1) (Double.fin 2) rfl rfl
  rw [h]
  have : dadd (Double.fin 1) (Double.fin 2) = Double.fin 3 := by
    simp [dadd]
    norm_num
  rw [this]

/-- Helper: IEEE double equality is symmetric. -/
theorem deq_comm (a b : Double) : deq a b = deq b a := by
  cases a <;> cases b <;> simp [deq] <;> exact eq_comm

/-- C5.  EQUAL never throws: it pops the two operands and pushes the
boolean computed by Is_equal_visitor.  Different variant alternatives
compare false, `nil == nil` is true, the relation is reflexive on every
value other than the NaN number, and it is symmetric on all values. -/
theorem c5_equal_total_refl_symm (c : Chunk) (ip : Nat) (g : List (String × Value))
    (l r : Value) (rest : List Value)
    (hop : c.code[ip]? = some (Op_code.toByte .equal)) :
    (step c { ip := ip, stack := r :: l :: rest, globals := g }).1
      = .ok { ip := ip + 1, stack := Value.bool (is_equal l r) :: rest, globals := g }
    ∧ (∀ a b : Value, vtag a ≠ vtag b → is_equal a b = false)
    ∧ is_equal Value.nil Value.nil = true
    ∧ (∀ v : Value, v ≠ Value.number Double.nan → is_equal v v = true)
    ∧ (∀ a b : Value, is_equal a b = is_equal b a) := by
  refine ⟨?_, ?_, rfl, ?_, ?_⟩
  · simp [step, exec, hop, Op_code.toByte, Op_code.ofByte?]
  · intro a b h
    cases a <;> cases b <;> simp_all [vtag, is_equal]
  · intro v hv
    cases v with
    | number d =>
      cases d with
      | nan => exact absurd rfl hv
      | inf a => simp [is_equal, deq]
      | fin q => simp [is_equal, deq]
    | string s => simp [is_equal]
    | bool b => simp [is_equal]
    | nil => rfl
  · intro a b
    cases a <;> cases b <;> simp [is_equal] <;>
      first
        | exact eq_comm
        | exact deq_comm _ _

/-- Witness for C5 at concrete inputs: comparing the number 1 with the
string "1" yields false without an error; nil equals nil; the number 1 is
reflexively equal; equality of 1 and "1" is symmetric. -/
theorem c5_equal_witness :
    (step { code := [10], constants := [], lines := [1] }
      { ip := 0,
        stack := [Value.string "1", Value.number (Double.fin 1)],
        globals := [] }).1
      = .ok { ip := 1, stack := [Value.bool false], globals := [] }
    ∧ is_equal Value.nil Value.nil = true
    ∧ is_equal (Value.number (Double.fin 1)) (Value.number (Double.fin 1)) = true
    ∧ is_equal (Value.number (Double.fin 1)) (Value.string "1")
        = is_equal (Value.string "1") (Value.number (Double.fin 1)) := by
  have h := c5_equal_total_refl_symm { code := [10], constants := [], lines := [1] } 0 []
    (Value.number (Double.fin 1)) (Value.string "1") [] rfl
  exact ⟨by rw [h.1]; decide,
         h.2.2.1,
         h.2.2.2.1 _ (by decide),
         h.2.2.2.2 _ _⟩

/-- C6.  The truthiness used by NOT and JUMP_IF_FALSE is false exactly on
the boolean false and on nil, and true on everything else, including the
number 0 and the empty string; NOT pops its operand and pushes the negated
truthiness; JUMP_IF_FALSE leaves the stack alone and skips forward by its
operand exactly when the top of the stack is not truthy. -/
theorem c6_truthiness_not_jump_if_false (ca cb : Chunk) (ipa ipb : Nat)
    (ga gb : List (String × Value)) (v w : Value) (resta restb : List Value)
    (b0 b1 : Nat)
    (hopa : ca.code[ipa]? = some (Op_code.toByte .not_))
    (hopb : cb.code[ipb]? = some (Op_code.toByte .jump_if_false))
    (hb0 : cb.code[ipb + 1]? = some b0)
    (hb1 : cb.code[ipb + 2]? = some b1) :
    (∀ u : Value, is_truthy u = false ↔ u = Value.bool false ∨ u = Value.nil)
    ∧ is_truthy (Value.number (Double.fin 0)) = true
    ∧ is_truthy (Value.string "") = true
    ∧ (step ca { ip := ipa, stack := v :: resta, globals := ga }).1
        = .ok { ip := ipa + 1, stack := Value.bool (!(is_truthy v)) :: resta, globals := ga }
    ∧ (step cb { ip := ipb, stack := w :: restb, globals := gb }).1
        = .ok { ip := ipb + 3 + (if is_truthy w then 0 else read_u16 b0 b1),
                stack := w :: restb, globals := gb } := by
  refine ⟨?_, rfl, rfl, ?_, ?_⟩
  · intro u
    cases u with
    | bool b => cases b <;> simp [is_truthy]
    | nil => simp [is_truthy]
    | string s => simp [is_truthy]
    | number d => simp [is_truthy]
  · simp [step, exec, hopa, Op_code.toByte, Op_code.ofByte?]
  · cases h : is_truthy w <;>
      simp [step, exec, hopb, hb0, hb1, Op_code.toByte, Op_code.ofByte?, h]

/-- Witness for C6 at concrete inputs: NOT on the number 0 pushes false
(0 is truthy), and JUMP_IF_FALSE on nil takes the jump. -/
theorem c6_truthiness_witness :
    (step { code := [17], constants := [], lines := [1] }
      { ip := 0, stack := [Value.number (Double.fin 0)], globals := [] }).1
      = .ok { ip := 1, stack := [Value.bool false], globals := [] }
    ∧ (step { code := [21, 5, 0], constants := [], lines := [1, 1, 1] }
      { ip := 0, stack := [Value.nil], globals := [] }).1
      = .ok { ip := 8, stack := [Value.nil], globals := [] } := by
  have h := c6_truthiness_not_jump_if_false
    { code := [17], constants := [], lines := [1] }
    { code := [21, 5, 0], constants := [], lines := [1, 1, 1] }
    0 0 [] [] (Value.number (Double.fin 0)) Value.nil [] [] 5 0
    rfl rfl rfl rfl
  refine ⟨by rw [h.2.2.2.1]; decide, by rw [h.2.2.2.2]; decide⟩

/-- C7.  GET_GLOBAL and SET_GLOBAL on a name with no binding in the
globals map throw `VM_error{"Undefined variable '<name>'"}` before
touching the stack or the map: the error state carries the same stack and
the same globals map, so in particular SET_GLOBAL never creates a binding
for an undefined variable. -/
theorem c7_undefined_global_aborts (ca cb : Chunk) (ipa ipb ka kb : Nat)
    (g : List (String × Value)) (name : String) (sta stb : List Value)
    (hfind : globals_find g name = none)
    (hopa : ca.code[ipa]? = some (Op_code.toByte .get_global))
    (hka : ca.code[ipa + 1]? = some ka)
    (hca : ca.constants[ka]? = some (Value.string name))
    (hopb : cb.code[ipb]? = some (Op_code.toByte .set_global))
    (hkb : cb.code[ipb + 1]? = some kb)
    (hcb : cb.constants[kb]? = some (Value.string name)) :
    (step ca { ip := ipa, stack := sta, globals := g }).1
      = .err (.vm_error ("Undefined variable '" ++ name ++ "'"))
          { ip := ipa + 2, stack := sta, globals := g }
    ∧ (step cb { ip := ipb, stack := stb, globals := g }).1
      = .err (.vm_error ("Undefined variable '" ++ name ++ "'"))
          { ip := ipb + 2, stack := stb, globals := g } := by
  constructor
  · simp [step, exec, hopa, hka, hca, hfind, Op_code.toByte, Op_code.ofByte?]
  · simp [step, exec, hopb, hkb, hcb, hfind, Op_code.toByte, Op_code.ofByte?]

/-- Witness for C7 at a concrete input: reading and writing the undefined
global `y` with an empty globals map both abort with the `VM_error`. -/
theorem c7_undefined_global_witness :
    (step { code := [7, 0], constants := [Value.string "y"], lines := [1, 1] }
      { ip := 0, stack := [], globals := [] }).1
      = .err (.vm_error ("Undefined variable '" ++ "y" ++ "'"))
          { ip := 2, stack := [], globals := [] }
    ∧ (step { code := [8, 0], constants := [Value.string "y"], lines := [1, 1] }
      { ip := 0, stack := [Value.nil], globals := [] }).1
      = .err (.vm_error ("Undefined variable '" ++ "y" ++ "'"))
          { ip := 2, stack := [Value.nil], globals := [] } :=
  c7_undefined_global_aborts
    { code := [7, 0], constants := [Value.string "y"], lines := [1, 1] }
    { code := [8, 0], constants := [Value.string "y"], lines := [1, 1] }
    0 0 0 0 [] "y" [] [Value.nil] rfl rfl rfl rfl rfl rfl rfl

/-- C9 (amended).  PRINT pops the top value and writes its rendering
followed by a newline; nil renders as `nil`, booleans as `true`/`false`,
strings as their raw contents, and a finite number with the default C++
stream formatting `fmt_g6` (six significant digits, %g layout) — which is
NOT the shortest round-trip decimal, see the counterexample theorem. -/
theorem c9_print_pops_and_writes (c : Chunk) (ip : Nat)
    (g : List (String × Value)) (v : Value) (rest : List Value)
    (hop : c.code[ip]? = some (Op_code.toByte .print)) :
    (step c { ip := ip, stack := v :: rest, globals := g }).1
      = .ok { ip := ip + 1, stack := rest, globals := g }
    ∧ (step c { ip := ip, stack := v :: rest, globals := g }).2
      = trace_events { ip := ip, stack := v :: rest, globals := g }
        ++ [OutEvent.print (print_value v ++ "\n")]
    ∧ print_value Value.nil = "nil"
    ∧ print_value (Value.bool true) = "true"
    ∧ print_value (Value.bool false) = "false"
    ∧ (∀ str : String, print_value (Value.string str) = str)
    ∧ (∀ q : ℚ, print_value (Value.number (Double.fin q)) = fmt_g6 q) := by
  refine ⟨?_, ?_, rfl, rfl, rfl, fun _ => rfl, fun _ => rfl⟩
  · simp [step, exec, hop, Op_code.toByte, Op_code.ofByte?]
  · simp [step, exec, hop, Op_code.toByte, Op_code.ofByte?]

/-- Witness for C9 at a concrete input: printing nil writes `nil` plus a
newline after the trace block and pops the value. -/
theorem c9_print_witness :
    (step { code := [19], constants := [], lines := [1] }
      { ip := 0, stack := [Value.nil], globals := [] }).1
      = .ok { ip := 1, stack := [], globals := [] }
    ∧ (step { code := [19], constants := [], lines := [1] }
      { ip := 0, stack := [Value.nil], globals := [] }).2
      = [OutEvent.trace "          [ nil ]\n", OutEvent.disasm 0, OutEvent.print "nil\n"] := by
  have h := c9_print_pops_and_writes { code := [19], constants := [], lines := [1] }
    0 [] Value.nil [] rfl
  exact ⟨h.1, by rw [h.2.1]; decide⟩

/-- C9 (counterexample).  Number printing is not the shortest round-trip
decimal: the two distinct doubles 2 ^ (-20) and 2 ^ (-20) + 2 ^ (-60)
both print as `9.53674e-07`, so the printed form does not determine the
value; moreover the exact value of the decimal 9.53674e-07 (`q_c`)
differs from both, so the printed decimal does not round-trip. -/
theorem c9_number_printing_not_roundtrip :
    print_value (Value.number (Double.fin q_a)) = "9.53674e-07"
    ∧ print_value (Value.number (Double.fin q_b)) = "9.53674e-07"
    ∧ q_a ≠ q_b
    ∧ q_c ≠ q_a
    ∧ q_c ≠ q_b :=
  ⟨by decide, by decide, by decide, by decide, by decide⟩

/-- C10.  SET_LOCAL stores the top of the stack into the addressed slot
without popping: the stack keeps its depth and the assigned value stays on
top; a successful SET_GLOBAL leaves the stack entirely unchanged while
updating the existing binding; DEFINE_GLOBAL binds the name and then pops
the value. -/
theorem c10_assignment_stack_effects (ca cb cc : Chunk) (ipa ipb ipc i kb kc : Nat)
    (g : List (String × Value)) (nb nc : String) (w : Value)
    (v vb vc : Value) (rest restb restc : List Value)
    (hopa : ca.code[ipa]? = some (Op_code.toByte .set_local))
    (hia : ca.code[ipa + 1]? = some i)
    (hilt : i < (v :: rest).length)
    (hopb : cb.code[ipb]? = some (Op_code.toByte .set_global))
    (hkb : cb.code[ipb + 1]? = some kb)
    (hcb : cb.constants[kb]? = some (Value.string nb))
    (hfind : globals_find g nb = some w)
    (hopc : cc.code[ipc]? = some (Op_code.toByte .define_global))
    (hkc : cc.code[ipc + 1]? = some kc)
    (hcc : cc.constants[kc]? = some (Value.string nc)) :
    ((step ca { ip := ipa, stack := v :: rest, globals := g }).1
        = .ok { ip := ipa + 2, stack := stack_store (v :: rest) i v, globals := g }
      ∧ (stack_store (v :: rest) i v).length = (v :: rest).length
      ∧ (stack_store (v :: rest) i v).head? = some v)
    ∧ (step cb { ip := ipb, stack := vb :: restb, globals := g }).1
        = .ok { ip := ipb + 2, stack := vb :: restb, globals := globals_assign g nb vb }
    ∧ (step cc { ip := ipc, stack := vc :: restc, globals := g }).1
        = .ok { ip := ipc + 2, stack := restc, globals := globals_define g nc vc } := by
  refine ⟨⟨?_, ?_, ?_⟩, ?_, ?_⟩
  · have hilt2 : i < rest.length + 1 := by simpa using hilt
    simp [step, exec, hopa, hia, hilt2, Op_code.toByte, Op_code.ofByte?]
  · simp [stack_store]
  · unfold stack_store
    cases h : (v :: rest).length - 1 - i with
    | zero => simp [h]
    | succ m => simp [h]
  · simp [step, exec, hopb, hkb, hcb, hfind, Op_code.toByte, Op_code.ofByte?]
  · simp [step, exec, hopc, hkc, hcc, Op_code.toByte, Op_code.ofByte?]

/-- Witness for C10 at concrete inputs: SET_LOCAL slot 0 with two values
on the stack keeps depth 2 and the value on top; SET_GLOBAL on the bound
name `y` keeps the stack and updates the binding; DEFINE_GLOBAL on `z`
pops the value. -/
theorem c10_assignment_witness :
    (step { code := [6, 0], constants := [], lines := [1, 1] }
      { ip := 0,
        stack := [Value.number (Double.fin 1), Value.number (Double.fin 2)],
        globals := [("y", Value.nil)] }).1
      = .ok { ip := 2,
              stack := [Value.number (Double.fin 1), Value.number (Double.fin 1)],
              globals := [("y", Value.nil)] }
    ∧ (step { code := [8, 0], constants := [Value.string "y"], lines := [1, 1] }
      { ip := 0, stack := [Value.bool true], globals := [("y", Value.nil)] }).1
      = .ok { ip := 2, stack := [Value.bool true], globals := [("y", Value.bool true)] }
    ∧ (step { code := [9, 0], constants := [Value.string "z"], lines := [1, 1] }
      { ip := 0, stack := [Value.bool false], globals := [("y", Value.nil)] }).1
      = .ok { ip := 2, stack := [],
              globals := [("y", Value.nil), ("z", Value.bool false)] } := by
  have h := c10_assignment_stack_effects
    { code := [6, 0], constants := [], lines := [1, 1] }
    { code := [8, 0], constants := [Value.string "y"], lines := [1, 1] }
    { code := [9, 0], constants := [Value.string "z"], lines := [1, 1] }
    0 0 0 0 0 0 [("y", Value.nil)] "y" "z" Value.nil
    (Value.number (Double.fin 1)) (Value.bool true) (Value.bool false)
    [Value.number (Double.fin 2)] [] []
    rfl rfl (by decide) rfl rfl rfl rfl rfl rfl rfl
  refine ⟨by rw [h.1.1]; decide, by rw [h.2.1]; decide, by rw [h.2.2]; decide⟩

end Cpplox
